import Mathlib

/-
Verification of the scheduled-maintenance workflow orchestrator
(src/agents/maintenance/workflows/scheduled_maintenance_workflow.py).

The orchestrator is embedded shallowly: the external collaborators
(database client, cluster analyzer, result interpreter, task scheduler,
task writer, notifier) are abstract functions returning
`Except String _` values, where `Except.error m` models a Python
exception whose `str(e)` is `m`.  Results the Python code only ever
tests for truthiness are modelled by `Option` / `List` emptiness:
the analyzer result is `Option α` with `none` standing for any falsy
return value, and an absent or `None` record set is modelled as the
empty list, since the orchestrator only evaluates `not records` and
passes the value onward.  Invocations of the stateful collaborators
are recorded in an event trace so that frame properties (which side
effects occur) can be stated.
-/

namespace ScheduledMaintenance

/-- Model of a Python `datetime.datetime` value: the components the
workflow reads and writes. -/
structure Datetime where
  year : Nat
  month : Nat
  day : Nat
  hour : Nat
  minute : Nat
  second : Nat
  microsecond : Nat
deriving DecidableEq, Repr

/-- Left-pad the decimal rendering of `n` with zeros up to `width`. -/
def padNum (width n : Nat) : String :=
  let s := toString n
  String.mk (List.replicate (width - s.length) '0') ++ s

/-- Python `datetime.isoformat()`: `YYYY-MM-DDTHH:MM:SS`, with a
`.ffffff` microsecond suffix exactly when the microsecond is nonzero. -/
def Datetime.isoformat (d : Datetime) : String :=
  let base := padNum 4 d.year ++ "-" ++ padNum 2 d.month ++ "-" ++ padNum 2 d.day
    ++ "T" ++ padNum 2 d.hour ++ ":" ++ padNum 2 d.minute ++ ":" ++ padNum 2 d.second
  if d.microsecond = 0 then base else base ++ "." ++ padNum 6 d.microsecond

/-- `period_end.replace(hour=23, minute=59, second=59, microsecond=999999)`
performed by `main` before calling `run` (line 212 of the source). -/
def endOfDay (d : Datetime) : Datetime :=
  { d with hour := 23, minute := 59, second := 59, microsecond := 999999 }

/-- A period endpoint as accepted by `run`: either a `datetime` object or a
pre-formatted textual timestamp (the code guards with
`isinstance(x, datetime)` before calling `isoformat`). -/
inductive TimeInput where
  | dt (d : Datetime)
  | txt (s : String)
deriving DecidableEq, Repr

/-- Python truthiness of an optional period argument: `None` is falsy, a
`datetime` object is always truthy, a string is truthy when non-empty. -/
def truthy : Option TimeInput → Bool
  | none => false
  | some (.dt _) => true
  | some (.txt s) => !s.isEmpty

/-- The expression `x.isoformat() if isinstance(x, datetime) else x`
used at lines 92-93 and 108-121 of the source. -/
def toDateStr : TimeInput → String
  | .dt d => d.isoformat
  | .txt s => s

/-- How a period endpoint is echoed into the run summary (lines 92-93). -/
def echoPeriod : Option TimeInput → Option String
  | none => none
  | some t => some (toDateStr t)

/-- Filter construction, lines 105-123 of the source: a dict in insertion
order, modelled as an association list.  The branch structure mirrors
`if period_start and period_end / elif period_start / elif period_end`. -/
def buildFilters (period_start period_end : Option TimeInput) : List (String × String) :=
  if truthy period_start && truthy period_end then
    match period_start, period_end with
    | some s, some e =>
        [("resolved_at.gte", toDateStr s), ("resolved_at.lte", toDateStr e)]
    | _, _ => []
  else if truthy period_start then
    match period_start with
    | some s => [("resolved_at.gte", toDateStr s)]
    | none => []
  else if truthy period_end then
    match period_end with
    | some e => [("resolved_at.lte", toDateStr e)]
    | none => []
  else []

/-- The run summary dict built at lines 88-94 and returned by `run`. -/
structure RunSummary where
  analysis_success : Bool
  tasks_created : Int
  errors : List String
  period_start : Option String
  period_end : Option String
deriving DecidableEq, Repr

/-- The summary as first created at the top of `run` (lines 88-94). -/
def initSummary (period_start period_end : Option TimeInput) : RunSummary :=
  { analysis_success := false
    tasks_created := 0
    errors := []
    period_start := echoPeriod period_start
    period_end := echoPeriod period_end }

/-- The writer result dict: the orchestrator reads only
`write_results.get('tasks_created', 0)` (line 166), so only that possibly
absent field is modelled. -/
structure WriteResult where
  tasks_created : Option Int
deriving DecidableEq, Repr

/-- The collaborator calls made by `run`, abstracted as functions.
`ρ` is the record row type, `α` the (truthy) analysis-result type,
`σ` the schedule-result type and `μ` the machine-descriptor type, all
opaque to the orchestrator.  `Except.error m` models the call raising an
exception with message `m`.  The analyzer returning `Option α` with
`none` models any falsy return; the writer in the source also receives
`self.scheduler` as a second argument, which is part of the abstracted
closure here. -/
structure Collaborators (ρ α σ μ : Type) where
  query_table : String → String → List (String × String) → Nat → Except String (List ρ)
  run_analysis : List ρ → Except String (Option α)
  interpret_results : α → Except String (List μ)
  schedule_maintenance_tasks : List μ → Except String σ
  write_maintenance_tasks : σ → Except String WriteResult
  send_notifications : List μ → Except String Unit

/-- One collaborator invocation performed during a run, with the
arguments the orchestrator passed. -/
inductive Event (ρ α σ μ : Type) where
  | query (table : String) (columns : String) (filters : List (String × String)) (limit : Nat)
  | analyze (records : List ρ)
  | interpret (a : α)
  | schedule (machines : List μ)
  | write (sr : σ)
  | notify (machines : List μ)
deriving DecidableEq

/-- Whether an event is the notifier invocation. -/
def Event.isNotify {ρ α σ μ : Type} : Event ρ α σ μ → Bool
  | .notify _ => true
  | _ => false

/-- Whether an event is a scheduling, persistence or notification side
effect (an invocation of the scheduler, the writer or the notifier). -/
def Event.isEffect {ρ α σ μ : Type} : Event ρ α σ μ → Bool
  | .schedule _ => true
  | .write _ => true
  | .notify _ => true
  | _ => false

/-- The body of the `try` block of `run` (lines 96-173), with the summary
threaded explicitly.  The result is `Sum.inl s` for a normal
`return result_summary`, and `Sum.inr (m, s)` when a collaborator call
raised an exception with message `m` while the summary held state `s`;
the second component is the trace of collaborator invocations. -/
def tryBody {ρ α σ μ : Type} (c : Collaborators ρ α σ μ)
    (period_start period_end : Option TimeInput) (s0 : RunSummary) :
    (RunSummary ⊕ String × RunSummary) × List (Event ρ α σ μ) :=
  let filters := buildFilters period_start period_end
  let ev1 : List (Event ρ α σ μ) := [.query "downtime_detail" "*" filters 1000]
  match c.query_table "downtime_detail" "*" filters 1000 with
  | .error m => (.inr (m, s0), ev1)
  | .ok records =>
    if records.isEmpty then
      (.inl { s0 with errors :=
          s0.errors ++ ["No machine records found in database for the specified period"] }, ev1)
    else
      let ev2 := ev1 ++ [.analyze records]
      match c.run_analysis records with
      | .error m => (.inr (m, s0), ev2)
      | .ok none =>
          (.inl { s0 with errors :=
              s0.errors ++ ["No results from machine clustering analysis"] }, ev2)
      | .ok (some analysis_results) =>
        let s1 := { s0 with analysis_success := true }
        let ev3 := ev2 ++ [.interpret analysis_results]
        match c.interpret_results analysis_results with
        | .error m => (.inr (m, s1), ev3)
        | .ok machines_to_service =>
          if machines_to_service.isEmpty then
            (.inl s1, ev3)
          else
            let ev4 := ev3 ++ [.schedule machines_to_service]
            match c.schedule_maintenance_tasks machines_to_service with
            | .error m => (.inr (m, s1), ev4)
            | .ok schedule_results =>
              let ev5 := ev4 ++ [.write schedule_results]
              match c.write_maintenance_tasks schedule_results with
              | .error m => (.inr (m, s1), ev5)
              | .ok write_results =>
                let s2 := { s1 with tasks_created := write_results.tasks_created.getD 0 }
                if s2.tasks_created > 0 then
                  let ev6 := ev5 ++ [.notify machines_to_service]
                  match c.send_notifications machines_to_service with
                  | .error m => (.inr (m, s2), ev6)
                  | .ok _ => (.inl s2, ev6)
                else
                  (.inl s2, ev5)

/-- The full `run` method (lines 73-180): build the initial summary, run
the `try` body, and on an exception append
`"Error in workflow execution: " ++ str(e)` to the errors and return the
summary (lines 175-180).  Returns the summary and the invocation trace. -/
def runT {ρ α σ μ : Type} (c : Collaborators ρ α σ μ)
    (period_start period_end : Option TimeInput) :
    RunSummary × List (Event ρ α σ μ) :=
  match tryBody c period_start period_end (initSummary period_start period_end) with
  | (.inl s, evs) => (s, evs)
  | (.inr (m, s), evs) =>
      ({ s with errors := s.errors ++ ["Error in workflow execution: " ++ m] }, evs)

/-- The summary returned by `run`. -/
def run {ρ α σ μ : Type} (c : Collaborators ρ α σ μ)
    (period_start period_end : Option TimeInput) : RunSummary :=
  (runT c period_start period_end).1

/-- The collaborator invocations performed by one call to `run`. -/
def runEvents {ρ α σ μ : Type} (c : Collaborators ρ α σ μ)
    (period_start period_end : Option TimeInput) : List (Event ρ α σ μ) :=
  (runT c period_start period_end).2

/-- The constructors of the sub-collaborators invoked by
`ScheduledMaintenanceWorkflow.__init__` (lines 63-66), abstracted:
`δ` is the database-client type, `σc` the scheduler type, `ωc` the
writer type and `νc` the notifier type.  The scheduler and writer
constructors receive the database client. -/
structure SubConstructors (δ σc ωc νc : Type) where
  supabaseClient : Except String δ
  maintenanceTaskScheduler : δ → Except String σc
  maintenanceTaskWriter : δ → Except String ωc
  maintenanceNotifier : Except String νc

/-- A fully constructed workflow object: all four collaborator members. -/
structure Workflow (δ σc ωc νc : Type) where
  db : δ
  scheduler : σc
  writer : ωc
  notifier : νc

/-- Python truthiness of an optional configuration string (line 57). -/
def strTruthy : Option String → Bool
  | none => false
  | some s => !s.isEmpty

/-- `ScheduledMaintenanceWorkflow.__init__` (lines 53-71): reject missing
or empty `SUPABASE_URL` / `SUPABASE_KEY` with a `ValueError`, then build
the database client, the scheduler, the writer and the notifier in
order; any exception is logged and re-raised, so it propagates
unchanged.  The `os.environ` mutation at lines 60-61 has no bearing on
the constructed object and is not modelled. -/
def initWorkflow {δ σc ωc νc : Type} (SUPABASE_URL SUPABASE_KEY : Option String)
    (mk : SubConstructors δ σc ωc νc) : Except String (Workflow δ σc ωc νc) :=
  if !strTruthy SUPABASE_URL || !strTruthy SUPABASE_KEY then
    .error "SUPABASE_URL and SUPABASE_KEY must be set in settings"
  else
    match mk.supabaseClient with
    | .error m => .error m
    | .ok db =>
      match mk.maintenanceTaskScheduler db with
      | .error m => .error m
      | .ok scheduler =>
        match mk.maintenanceTaskWriter db with
        | .error m => .error m
        | .ok writer =>
          match mk.maintenanceNotifier with
          | .error m => .error m
          | .ok notifier => .ok ⟨db, scheduler, writer, notifier⟩

/-- C6: filter construction obeys the four-row rule table: with both
endpoints absent the filter map is empty; with exactly one present
(a datetime, or per the spec a pre-formatted textual timestamp, hence a
truthy value) it contains exactly the one key with the matching operator
suffix; with both present it contains exactly both keys, with the values
the normalized inputs (datetimes serialized via isoformat, text passed
through unchanged, which is what toDateStr computes). -/
theorem buildFilters_rule_table :
    buildFilters none none = [] ∧
    (∀ t : TimeInput, truthy (some t) = true →
      buildFilters (some t) none = [("resolved_at.gte", toDateStr t)]) ∧
    (∀ t : TimeInput, truthy (some t) = true →
      buildFilters none (some t) = [("resolved_at.lte", toDateStr t)]) ∧
    (∀ s e : TimeInput, truthy (some s) = true → truthy (some e) = true →
      buildFilters (some s) (some e) =
        [("resolved_at.gte", toDateStr s), ("resolved_at.lte", toDateStr e)]) := by
  refine ⟨rfl, ?_, ?_, ?_⟩
  · intro t ht
    cases t <;> simp_all [buildFilters, truthy]
  · intro t ht
    cases t <;> simp_all [buildFilters, truthy]
  · intro s e hs he
    simp [buildFilters, hs, he]

/-- Witness for C6 at concrete inputs: a present start given as a
pre-formatted string and an absent end yield exactly the gte filter. -/
theorem buildFilters_rule_table_witness :
    truthy (some (TimeInput.txt "2024-01-01")) = true ∧
    buildFilters (some (TimeInput.txt "2024-01-01")) none =
      [("resolved_at.gte", "2024-01-01")] :=
  ⟨by decide, buildFilters_rule_table.2.1 (TimeInput.txt "2024-01-01") (by decide)⟩

/-- C2: when the database query for downtime_detail returns an empty (or
absent, modelled as empty) record set, run terminates immediately with
analysis_success false, tasks_created 0, and exactly the one error
string about missing machine records. -/
theorem run_empty_records_gate {ρ α σ μ : Type} (c : Collaborators ρ α σ μ)
    (ps pe : Option TimeInput)
    (h : c.query_table "downtime_detail" "*" (buildFilters ps pe) 1000 = .ok []) :
    (run c ps pe).analysis_success = false ∧
    (run c ps pe).tasks_created = 0 ∧
    (run c ps pe).errors =
      ["No machine records found in database for the specified period"] := by
  simp [run, runT, tryBody, h, initSummary]

/-- Concrete collaborators whose query returns no records. -/
def cNoRecords : Collaborators Nat Nat Nat Nat where
  query_table := fun _ _ _ _ => .ok []
  run_analysis := fun _ => .ok none
  interpret_results := fun _ => .ok []
  schedule_maintenance_tasks := fun _ => .ok 0
  write_maintenance_tasks := fun _ => .ok ⟨none⟩
  send_notifications := fun _ => .ok ()

/-- Witness for C2 at a concrete empty-database run. -/
theorem run_empty_records_gate_witness :
    (run cNoRecords none none).analysis_success = false ∧
    (run cNoRecords none none).tasks_created = 0 ∧
    (run cNoRecords none none).errors =
      ["No machine records found in database for the specified period"] :=
  run_empty_records_gate cNoRecords none none rfl

/-- C3: with a non-empty record set, a falsy analyzer result terminates
the run with analysis_success false and exactly the one clustering
error; a truthy analyzer result makes the returned summary carry
analysis_success true, whatever happens afterwards (the flag is set
before interpretation and never cleared). -/
theorem run_empty_analysis_gate {ρ α σ μ : Type} (c : Collaborators ρ α σ μ)
    (ps pe : Option TimeInput) (records : List ρ)
    (hq : c.query_table "downtime_detail" "*" (buildFilters ps pe) 1000 = .ok records)
    (hne : records ≠ []) :
    (c.run_analysis records = .ok none →
      (run c ps pe).analysis_success = false ∧
      (run c ps pe).errors = ["No results from machine clustering analysis"]) ∧
    (∀ a : α, c.run_analysis records = .ok (some a) →
      (run c ps pe).analysis_success = true) := by
  obtain ⟨r, rs, rfl⟩ : ∃ r rs, records = r :: rs := by
    cases records with
    | nil => exact absurd rfl hne
    | cons r rs => exact ⟨r, rs, rfl⟩
  constructor
  · intro ha
    simp [run, runT, tryBody, hq, ha, initSummary]
  · intro a ha
    simp only [run, runT, tryBody, hq, ha]
    rcases hi : c.interpret_results a with m | ms
    · simp [hi]
    · rcases ms with _ | ⟨m0, ms⟩
      · simp [hi]
      · rcases hs : c.schedule_maintenance_tasks (m0 :: ms) with m | sr
        · simp [hi, hs]
        · rcases hw : c.write_maintenance_tasks sr with m | wr
          · simp [hi, hs, hw]
          · by_cases ht : (0 : Int) < wr.tasks_created.getD 0
            · rcases hn : c.send_notifications (m0 :: ms) with m | u <;>
                simp [hi, hs, hw, hn, ht]
            · simp [hi, hs, hw, ht]

/-- Concrete collaborators with records but a falsy analyzer result. -/
def cNoAnalysis : Collaborators Nat Nat Nat Nat where
  query_table := fun _ _ _ _ => .ok [5]
  run_analysis := fun _ => .ok none
  interpret_results := fun _ => .ok []
  schedule_maintenance_tasks := fun _ => .ok 0
  write_maintenance_tasks := fun _ => .ok ⟨none⟩
  send_notifications := fun _ => .ok ()

/-- Witness for C3 at a concrete run whose analyzer returns nothing. -/
theorem run_empty_analysis_gate_witness :
    (run cNoAnalysis none none).analysis_success = false ∧
    (run cNoAnalysis none none).errors =
      ["No results from machine clustering analysis"] :=
  (run_empty_analysis_gate cNoAnalysis none none [5] rfl (by decide)).1 rfl

/-- C4: when the analyzer succeeds but the interpreter returns an empty
machine list, run terminates with analysis_success true, tasks_created
0, and an empty errors list. -/
theorem run_empty_machines_gate {ρ α σ μ : Type} (c : Collaborators ρ α σ μ)
    (ps pe : Option TimeInput) (records : List ρ) (a : α)
    (hq : c.query_table "downtime_detail" "*" (buildFilters ps pe) 1000 = .ok records)
    (hne : records ≠ [])
    (ha : c.run_analysis records = .ok (some a))
    (hi : c.interpret_results a = .ok []) :
    (run c ps pe).analysis_success = true ∧
    (run c ps pe).tasks_created = 0 ∧
    (run c ps pe).errors = [] := by
  obtain ⟨r, rs, rfl⟩ : ∃ r rs, records = r :: rs := by
    cases records with
    | nil => exact absurd rfl hne
    | cons r rs => exact ⟨r, rs, rfl⟩
  simp [run, runT, tryBody, hq, ha, hi, initSummary]

/-- Concrete collaborators whose interpreter finds no machines. -/
def cNoMachines : Collaborators Nat Nat Nat Nat where
  query_table := fun _ _ _ _ => .ok [5]
  run_analysis := fun _ => .ok (some 1)
  interpret_results := fun _ => .ok []
  schedule_maintenance_tasks := fun _ => .ok 0
  write_maintenance_tasks := fun _ => .ok ⟨none⟩
  send_notifications := fun _ => .ok ()

/-- Witness for C4 at a concrete run with no machines to service. -/
theorem run_empty_machines_gate_witness :
    (run cNoMachines none none).analysis_success = true ∧
    (run cNoMachines none none).tasks_created = 0 ∧
    (run cNoMachines none none).errors = [] :=
  run_empty_machines_gate cNoMachines none none [5] 1 rfl (by decide) rfl rfl

/-- C5: when the run reaches the schedule-and-write stage and the writer
returns, tasks_created is set from the write result (defaulting to 0
when the field is absent), and the notifier is invoked exactly once with
the interpreted machine list when tasks_created is positive and never
invoked otherwise. -/
theorem run_write_and_notify {ρ α σ μ : Type} (c : Collaborators ρ α σ μ)
    (ps pe : Option TimeInput) (records : List ρ) (a : α) (machines : List μ)
    (sr : σ) (wr : WriteResult)
    (hq : c.query_table "downtime_detail" "*" (buildFilters ps pe) 1000 = .ok records)
    (hne : records ≠ [])
    (ha : c.run_analysis records = .ok (some a))
    (hi : c.interpret_results a = .ok machines)
    (hm : machines ≠ [])
    (hs : c.schedule_maintenance_tasks machines = .ok sr)
    (hw : c.write_maintenance_tasks sr = .ok wr) :
    (run c ps pe).tasks_created = wr.tasks_created.getD 0 ∧
    (runEvents c ps pe).filter Event.isNotify =
      (if wr.tasks_created.getD 0 > 0 then [Event.notify machines] else []) := by
  obtain ⟨r, rs, rfl⟩ : ∃ r rs, records = r :: rs := by
    cases records with
    | nil => exact absurd rfl hne
    | cons r rs => exact ⟨r, rs, rfl⟩
  obtain ⟨m0, ms, rfl⟩ : ∃ m0 ms, machines = m0 :: ms := by
    cases machines with
    | nil => exact absurd rfl hm
    | cons m0 ms => exact ⟨m0, ms, rfl⟩
  by_cases ht : (0 : Int) < wr.tasks_created.getD 0
  · rcases hn : c.send_notifications (m0 :: ms) with m | u <;>
      simp [run, runT, runEvents, tryBody, hq, ha, hi, hs, hw, hn, ht, Event.isNotify]
  · simp [run, runT, runEvents, tryBody, hq, ha, hi, hs, hw, ht, Event.isNotify]

/-- Concrete collaborators whose writer reports three created tasks. -/
def cTasks3 : Collaborators Nat Nat Nat Nat where
  query_table := fun _ _ _ _ => .ok [5]
  run_analysis := fun _ => .ok (some 1)
  interpret_results := fun _ => .ok [7, 8, 9]
  schedule_maintenance_tasks := fun _ => .ok 0
  write_maintenance_tasks := fun _ => .ok ⟨some 3⟩
  send_notifications := fun _ => .ok ()

/-- Witness for C5: three created tasks yield one notifier call with the
machine list. -/
theorem run_write_and_notify_witness :
    (run cTasks3 none none).tasks_created = 3 ∧
    (runEvents cTasks3 none none).filter Event.isNotify =
      [Event.notify [7, 8, 9]] := by
  have h := run_write_and_notify cTasks3 none none [5] 1 [7, 8, 9] 0 ⟨some 3⟩
    rfl (by decide) rfl rfl (by decide) rfl rfl
  exact ⟨h.1.trans rfl, h.2.trans rfl⟩

/-- C1: if a collaborator call raises with message m at any stage, run
returns normally: the returned value is exactly the summary state held
at the moment of the raise, so every field populated before the failure
is kept as already set, with the message m prefixed by the string
Error in workflow execution appended to its errors list. -/
theorem run_exception_contained {ρ α σ μ : Type} (c : Collaborators ρ α σ μ)
    (ps pe : Option TimeInput) (m : String) (s : RunSummary)
    (h : (tryBody c ps pe (initSummary ps pe)).1 = .inr (m, s)) :
    run c ps pe =
      { s with errors := s.errors ++ ["Error in workflow execution: " ++ m] } := by
  unfold run runT
  rcases hp : tryBody c ps pe (initSummary ps pe) with ⟨r, evs⟩
  rw [hp] at h
  simp only at h
  subst h
  simp

/-- Concrete collaborators whose query raises an exception. -/
def cRaise : Collaborators Nat Nat Nat Nat where
  query_table := fun _ _ _ _ => .error "boom"
  run_analysis := fun _ => .ok none
  interpret_results := fun _ => .ok []
  schedule_maintenance_tasks := fun _ => .ok 0
  write_maintenance_tasks := fun _ => .ok ⟨none⟩
  send_notifications := fun _ => .ok ()

/-- Witness for C1: a query that raises boom yields a normal return whose
single error carries the prefixed message. -/
theorem run_exception_contained_witness :
    run cRaise none none =
      { analysis_success := false, tasks_created := 0,
        errors := ["Error in workflow execution: boom"],
        period_start := none, period_end := none } := by
  rw [run_exception_contained cRaise none none "boom" (initSummary none none) rfl]
  rfl

/-- C9: the errors list of every summary returned by run has at most one
element: each append is immediately followed by a return, and the states
the exception handler can receive all carry empty errors. -/
theorem run_errors_at_most_one {ρ α σ μ : Type} (c : Collaborators ρ α σ μ)
    (ps pe : Option TimeInput) : (run c ps pe).errors.length ≤ 1 := by
  rcases hq : c.query_table "downtime_detail" "*" (buildFilters ps pe) 1000 with m | records
  · simp [run, runT, tryBody, hq, initSummary]
  · rcases records with _ | ⟨r, rs⟩
    · simp [run, runT, tryBody, hq, initSummary]
    · rcases ha : c.run_analysis (r :: rs) with m | oa
      · simp [run, runT, tryBody, hq, ha, initSummary]
      · rcases oa with _ | a
        · simp [run, runT, tryBody, hq, ha, initSummary]
        · rcases hi : c.interpret_results a with m | ms
          · simp [run, runT, tryBody, hq, ha, hi, initSummary]
          · rcases ms with _ | ⟨m0, ms⟩
            · simp [run, runT, tryBody, hq, ha, hi, initSummary]
            · rcases hs : c.schedule_maintenance_tasks (m0 :: ms) with m | sr
              · simp [run, runT, tryBody, hq, ha, hi, hs, initSummary]
              · rcases hw : c.write_maintenance_tasks sr with m | wr
                · simp [run, runT, tryBody, hq, ha, hi, hs, hw, initSummary]
                · by_cases ht : (0 : Int) < wr.tasks_created.getD 0
                  · rcases hn : c.send_notifications (m0 :: ms) with m | u <;>
                      simp [run, runT, tryBody, hq, ha, hi, hs, hw, hn, ht, initSummary]
                  · simp [run, runT, tryBody, hq, ha, hi, hs, hw, ht, initSummary]

/-- C10: a run that exits early at an empty-result gate — no records, a
falsy analyzer result, or an empty machine list — performs no
scheduling, persistence or notification side effect: no invocation of
the scheduler, the writer or the notifier appears in its trace. -/
theorem run_early_exit_frame {ρ α σ μ : Type} (c : Collaborators ρ α σ μ)
    (ps pe : Option TimeInput)
    (h : c.query_table "downtime_detail" "*" (buildFilters ps pe) 1000 = .ok [] ∨
      (∃ records, records ≠ [] ∧
        c.query_table "downtime_detail" "*" (buildFilters ps pe) 1000 = .ok records ∧
        c.run_analysis records = .ok none) ∨
      (∃ records a, records ≠ [] ∧
        c.query_table "downtime_detail" "*" (buildFilters ps pe) 1000 = .ok records ∧
        c.run_analysis records = .ok (some a) ∧
        c.interpret_results a = .ok [])) :
    (runEvents c ps pe).filter Event.isEffect = [] := by
  rcases h with hq | ⟨records, hne, hq, ha⟩ | ⟨records, a, hne, hq, ha, hi⟩
  · simp [runEvents, runT, tryBody, hq, Event.isEffect]
  · obtain ⟨r, rs, rfl⟩ : ∃ r rs, records = r :: rs := by
      cases records with
      | nil => exact absurd rfl hne
      | cons r rs => exact ⟨r, rs, rfl⟩
    simp [runEvents, runT, tryBody, hq, ha, Event.isEffect]
  · obtain ⟨r, rs, rfl⟩ : ∃ r rs, records = r :: rs := by
      cases records with
      | nil => exact absurd rfl hne
      | cons r rs => exact ⟨r, rs, rfl⟩
    simp [runEvents, runT, tryBody, hq, ha, hi, Event.isEffect]

/-- Concrete collaborators for the C10 witness: records and a truthy
analysis but no machines to service. -/
def cFrameIdle : Collaborators Nat Nat Nat Nat where
  query_table := fun _ _ _ _ => .ok [5]
  run_analysis := fun _ => .ok (some 1)
  interpret_results := fun _ => .ok []
  schedule_maintenance_tasks := fun _ => .ok 0
  write_maintenance_tasks := fun _ => .ok ⟨none⟩
  send_notifications := fun _ => .ok ()

/-- Witness for C10 at a concrete interpreter-empty early exit. -/
theorem run_early_exit_frame_witness :
    (runEvents cFrameIdle none none).filter Event.isEffect = [] :=
  run_early_exit_frame cFrameIdle none none
    (Or.inr (Or.inr ⟨[5], 1, by decide, rfl, rfl, rfl⟩))

/-- The four machines the interpreter identifies in the end-to-end
scenario. -/
def e2eMachines : List Nat := [101, 102, 103, 104]

/-- Concrete collaborators for the end-to-end scenario: 50 records, a
truthy analysis, four machines, and a writer reporting four tasks. -/
def cEndToEnd : Collaborators Nat Nat Nat Nat where
  query_table := fun _ _ _ _ => .ok (List.range 50)
  run_analysis := fun _ => .ok (some 1)
  interpret_results := fun _ => .ok e2eMachines
  schedule_maintenance_tasks := fun _ => .ok 0
  write_maintenance_tasks := fun _ => .ok ⟨some 4⟩
  send_notifications := fun _ => .ok ()

/-- The start of the scenario window, the datetime for 2024-01-01. -/
def e2eStart : Datetime := ⟨2024, 1, 1, 0, 0, 0, 0⟩

/-- The end of the scenario window: 2024-01-31 normalized by main to the
last instant of the day before run is called (source line 212). -/
def e2eEnd : Datetime := endOfDay ⟨2024, 1, 31, 0, 0, 0, 0⟩

/-- C7: the end-to-end scenario returns the summary with
analysis_success true, tasks_created 4, no errors, and the two period
endpoints echoed in isoformat textual form, the end normalized to the
last instant of its calendar day; the notifier is called exactly once
with the four machines. -/
theorem run_end_to_end_scenario :
    run cEndToEnd (some (.dt e2eStart)) (some (.dt e2eEnd)) =
      { analysis_success := true, tasks_created := 4, errors := [],
        period_start := some "2024-01-01T00:00:00",
        period_end := some "2024-01-31T23:59:59.999999" } ∧
    (runEvents cEndToEnd (some (.dt e2eStart)) (some (.dt e2eEnd))).filter
        Event.isNotify = [Event.notify e2eMachines] := by
  constructor <;> rfl

/-- Sub-collaborator constructors that all succeed, for the C8 witness. -/
def mkAllOk : SubConstructors Nat Nat Nat Nat where
  supabaseClient := .ok 10
  maintenanceTaskScheduler := fun _ => .ok 11
  maintenanceTaskWriter := fun _ => .ok 12
  maintenanceNotifier := .ok 13

/-- C8: construction with a missing or empty endpoint or credential
fails with the configuration ValueError and yields no object; a
returned object is fully initialized, each member the successful result
of its sub-constructor; and a failure of any sub-constructor on the
construction path propagates out unchanged, so construction either
fully succeeds or fails. -/
theorem initWorkflow_contract {δ σc ωc νc : Type} (url key : Option String)
    (mk : SubConstructors δ σc ωc νc) :
    ((strTruthy url = false ∨ strTruthy key = false) →
      initWorkflow url key mk =
        .error "SUPABASE_URL and SUPABASE_KEY must be set in settings") ∧
    (∀ w : Workflow δ σc ωc νc, initWorkflow url key mk = .ok w →
      mk.supabaseClient = .ok w.db ∧
      mk.maintenanceTaskScheduler w.db = .ok w.scheduler ∧
      mk.maintenanceTaskWriter w.db = .ok w.writer ∧
      mk.maintenanceNotifier = .ok w.notifier) ∧
    (∀ m : String, strTruthy url = true → strTruthy key = true →
      (mk.supabaseClient = .error m → initWorkflow url key mk = .error m) ∧
      (∀ db, mk.supabaseClient = .ok db →
        mk.maintenanceTaskScheduler db = .error m →
        initWorkflow url key mk = .error m) ∧
      (∀ db s, mk.supabaseClient = .ok db →
        mk.maintenanceTaskScheduler db = .ok s →
        mk.maintenanceTaskWriter db = .error m →
        initWorkflow url key mk = .error m) ∧
      (∀ db s w, mk.supabaseClient = .ok db →
        mk.maintenanceTaskScheduler db = .ok s →
        mk.maintenanceTaskWriter db = .ok w →
        mk.maintenanceNotifier = .error m →
        initWorkflow url key mk = .error m)) := by
  refine ⟨?_, ?_, ?_⟩
  · intro h
    rcases h with h | h <;> simp [initWorkflow, h]
  · intro w hw
    by_cases hu : strTruthy url = true
    · by_cases hk : strTruthy key = true
      · rcases hdb : mk.supabaseClient with m | db
        · simp [initWorkflow, hu, hk, hdb] at hw
        · rcases hsc : mk.maintenanceTaskScheduler db with m | sc
          · simp [initWorkflow, hu, hk, hdb, hsc] at hw
          · rcases hwr : mk.maintenanceTaskWriter db with m | wrr
            · simp [initWorkflow, hu, hk, hdb, hsc, hwr] at hw
            · rcases hnt : mk.maintenanceNotifier with m | nt
              · simp [initWorkflow, hu, hk, hdb, hsc, hwr, hnt] at hw
              · simp only [initWorkflow, hu, hk, hdb, hsc, hwr, hnt,
                  Bool.not_true, Bool.or_self, Bool.false_eq_true, if_false] at hw
                cases hw
                simp [hdb, hsc, hwr, hnt]
      · simp [initWorkflow, Bool.eq_false_iff.mpr hk] at hw
    · simp [initWorkflow, Bool.eq_false_iff.mpr hu] at hw
  · intro m hu hk
    refine ⟨?_, ?_, ?_, ?_⟩
    · intro hdb
      simp [initWorkflow, hu, hk, hdb]
    · intro db hdb hsc
      simp [initWorkflow, hu, hk, hdb, hsc]
    · intro db s hdb hsc hwr
      simp [initWorkflow, hu, hk, hdb, hsc, hwr]
    · intro db s w hdb hsc hwr hnt
      simp [initWorkflow, hu, hk, hdb, hsc, hwr, hnt]

/-- Witness for C8: a missing endpoint fails construction with the
configuration message, at concrete sub-constructors. -/
theorem initWorkflow_contract_witness :
    initWorkflow none (some "service-key") mkAllOk =
      .error "SUPABASE_URL and SUPABASE_KEY must be set in settings" :=
  (initWorkflow_contract none (some "service-key") mkAllOk).1 (Or.inl (by decide))

end ScheduledMaintenance
